import Mathlib

/-!
Shallow embedding of `src/signal/monitor.ts` (the Signal inbound event
resolution and notification pipeline) and theorems about its behaviour.

Conventions of the embedding:
* TypeScript `x?: T | null` fields become `Option T` (both `null` and
  `undefined` map to `none`); JavaScript truthiness of an optional string
  is `some s` with `s ≠ ""`.
* Side effects (log lines, pairing upserts, outbound sends, system-event
  enqueues, last-route updates, reply dispatch) are recorded as an ordered
  `List SignalEffect` returned by the handler.
* Collaborators imported from modules outside `monitor.ts`
  (`identity.js`, `utils.js`, `pairing-store.js`, routing, media, and the
  SSE parse step) are passed in as an explicit `SignalExternal` record of
  functions and per-event oracle results, so every theorem quantifies over
  their behaviour; `monitor.ts` itself is translated line by line.
-/

/-- Mirror of the TS literal union used for reaction target kinds in
`SignalReactionTarget` (monitor.ts lines 121-125). -/
inductive TargetKind
  | phone
  | uuid
deriving DecidableEq, Repr

/-- Mirror of the TS `groupInfo` object shape used by both
`SignalReactionMessage` and `SignalDataMessage`. -/
structure SignalGroupInfo where
  groupId : Option String := none
  groupName : Option String := none
deriving DecidableEq, Repr

/-- Mirror of `SignalReactionMessage` (monitor.ts lines 49-59). -/
structure SignalReactionMessage where
  emoji : Option String := none
  targetAuthor : Option String := none
  targetAuthorUuid : Option String := none
  targetSentTimestamp : Option Int := none
  isRemove : Option Bool := none
  groupInfo : Option SignalGroupInfo := none
deriving DecidableEq, Repr

/-- Mirror of `SignalAttachment` (monitor.ts lines 72-77). -/
structure SignalAttachment where
  id : Option String := none
  contentType : Option String := none
  filename : Option String := none
  size : Option Int := none
deriving DecidableEq, Repr

/-- Mirror of the `quote` object shape of `SignalDataMessage`. -/
structure SignalQuote where
  text : Option String := none
deriving DecidableEq, Repr

/-- Mirror of `SignalDataMessage` (monitor.ts lines 61-70). -/
structure SignalDataMessage where
  timestamp : Option Int := none
  message : Option String := none
  attachments : Option (List SignalAttachment) := none
  groupInfo : Option SignalGroupInfo := none
  quote : Option SignalQuote := none
deriving DecidableEq, Repr

/-- Mirror of the `editMessage` wrapper of `SignalEnvelope`. -/
structure SignalEditMessage where
  dataMessage : Option SignalDataMessage := none
deriving DecidableEq, Repr

/-- Mirror of `SignalEnvelope` (monitor.ts lines 38-47); the opaque
`syncMessage: unknown` field is kept only as its JS truthiness. -/
structure SignalEnvelope where
  sourceNumber : Option String := none
  sourceUuid : Option String := none
  sourceName : Option String := none
  timestamp : Option Int := none
  dataMessage : Option SignalDataMessage := none
  editMessage : Option SignalEditMessage := none
  syncMessage : Bool := false
  reactionMessage : Option SignalReactionMessage := none
deriving DecidableEq, Repr

/-- Mirror of `SignalReceivePayload` (monitor.ts lines 99-103); the
`exception?: \x7bmessage?: string\x7d` wrapper is flattened to the message
string whose JS truthiness gates the log line. -/
structure SignalReceivePayload where
  account : Option String := none
  envelope : Option SignalEnvelope := none
  exceptionMessage : Option String := none
deriving DecidableEq, Repr

/-- One raw SSE frame handed to `handleEvent` (`event.event` / `event.data`). -/
structure SignalStreamEvent where
  event : Option String := none
  data : Option String := none
deriving DecidableEq, Repr

/-- Modelled from the spec: the sender identity produced by
`resolveSignalSender` in `identity.js` (not among the given sources) is a
tagged union, phone with an E.164 form or an opaque uuid; `monitor.ts`
reads only `sender.kind` and `sender.e164` from it. -/
inductive SignalSender
  | phone (e164 : String)
  | uuid (id : String)
deriving DecidableEq, Repr

/-- Mirror of `SignalReactionTarget` (monitor.ts lines 121-125). -/
structure SignalReactionTarget where
  kind : TargetKind
  id : String
  display : String
deriving DecidableEq, Repr

/-- Result record of `upsertProviderPairingRequest` (pairing-store.js):
`\x7bcode, created\x7d`, with `created = false` on an already-pending id. -/
structure PairingUpsertResult where
  code : String
  created : Bool
deriving DecidableEq, Repr

/-- Result record of `resolveAgentRoute` as consumed by `monitor.ts`. -/
structure RouteInfo where
  sessionKey : String
  mainSessionKey : String
  accountId : String
  agentId : String
deriving DecidableEq, Repr

/-- Observable side effects of one `handleEvent` run, in program order. -/
inductive SignalEffect
  | logError (msg : String)
  | logVerbose (msg : String)
  | pairingUpsert (provider : String) (id : String)
  | sendMessage (target : String) (text : String)
  | enqueueSystemEvent (text : String) (sessionKey : String) (contextKey : String)
  | updateLastRoute (sessionKey : String) (toTarget : String) (accountId : String)
  | dispatchReply (commandAuthorized : Bool) (body : String) (toTarget : String)
deriving DecidableEq, Repr

/-- Model of the JavaScript `trim()` string method used throughout
`monitor.ts`: strip leading and trailing whitespace, written structurally
over the character list so that concrete instances reduce. -/
def jsTrim (s : String) : String :=
  ⟨((s.data.dropWhile Char.isWhitespace).reverse.dropWhile Char.isWhitespace).reverse⟩

/-- Model of the `.replace(/\n/g, "\\n")` escaping of the verbose inbound
preview log (monitor.ts line 649). -/
def escapeNewlines (s : String) : String :=
  ⟨s.data.flatMap (fun c => if c = '\n' then ['\\', 'n'] else [c])⟩

/-- JS truthiness of an optional string: present and non-empty. -/
def truthy (s : Option String) : Bool :=
  (s.getD "") ≠ ""

/-- Mirror of `normalizeAllowList` (monitor.ts lines 117-119): trim each
entry and drop the empty ones. -/
def normalizeAllowList (raw : Option (List String)) : List String :=
  ((raw.getD []).map jsTrim).filter (fun s => s ≠ "")

/-- Mirror of `resolveSignalReactionTargets` (monitor.ts lines 127-141),
parameterized by `normalizeE164` from `utils.js`: push a uuid candidate
when `targetAuthorUuid` trims non-empty, then a phone candidate when
`targetAuthor` trims non-empty. -/
def resolveSignalReactionTargets (normalizeE164 : String → String)
    (reaction : SignalReactionMessage) : List SignalReactionTarget :=
  let uuidTargets :=
    match reaction.targetAuthorUuid.map jsTrim with
    | some u => if u ≠ "" then [⟨TargetKind.uuid, u, "uuid:" ++ u⟩] else []
    | none => []
  let phoneTargets :=
    match reaction.targetAuthor.map jsTrim with
    | some a =>
        if a ≠ "" then
          let normalized := normalizeE164 a
          [⟨TargetKind.phone, normalized, normalized⟩]
        else []
    | none => []
  uuidTargets ++ phoneTargets

/-- Parameter record of `shouldEmitSignalReactionNotification`
(monitor.ts lines 143-149). -/
structure ShouldEmitSignalReactionParams where
  mode : Option String := none
  account : Option String := none
  targets : Option (List SignalReactionTarget) := none
  sender : Option SignalSender := none
  allowlist : Option (List String) := none

/-- Mirror of `shouldEmitSignalReactionNotification` (monitor.ts lines
143-169), parameterized by `normalizeE164` and `isSignalSenderAllowed`
from the modules outside `monitor.ts`. -/
def shouldEmitSignalReactionNotification
    (normalizeE164 : String → String)
    (isSignalSenderAllowed : SignalSender → List String → Bool)
    (params : ShouldEmitSignalReactionParams) : Bool :=
  let effectiveMode := params.mode.getD "own"
  if effectiveMode = "off" then false
  else if effectiveMode = "own" then
    match params.account.map jsTrim, params.targets with
    | some accountId, some targets =>
        if accountId = "" ∨ targets.length = 0 then false
        else
          let normalizedAccount := normalizeE164 accountId
          targets.any (fun target =>
            match target.kind with
            | TargetKind.uuid =>
                accountId = target.id || accountId = "uuid:" ++ target.id
            | TargetKind.phone => normalizedAccount = target.id)
    | _, _ => false
  else if effectiveMode = "allowlist" then
    match params.sender, params.allowlist with
    | some sender, some allowlist =>
        if allowlist.length = 0 then false
        else isSignalSenderAllowed sender allowlist
    | _, _ => false
  else true

/-- Parameter record of `buildSignalReactionSystemEventText`
(monitor.ts lines 171-177). -/
structure SignalReactionSystemEventParams where
  emojiLabel : String
  actorLabel : String
  messageId : String
  targetLabel : Option String := none
  groupLabel : Option String := none

/-- Mirror of `buildSignalReactionSystemEventText` (monitor.ts lines
171-185); the ternaries test JS truthiness of the optional labels. -/
def buildSignalReactionSystemEventText
    (params : SignalReactionSystemEventParams) : String :=
  let base := "Signal reaction added: " ++ params.emojiLabel ++ " by " ++
    params.actorLabel ++ " msg " ++ params.messageId
  let withTarget :=
    match params.targetLabel with
    | some t => if t ≠ "" then base ++ " from " ++ t else base
    | none => base
  match params.groupLabel with
  | some g => if g ≠ "" then withTarget ++ " in " ++ g else withTarget
  | none => withTarget

/-- Per-account configuration of `monitorSignalProvider` as resolved in
monitor.ts lines 313-335, after defaults and `normalizeAllowList` are
applied: `account` is the trimmed configured own account (or `none`),
policies keep their TS string values, `reactionMode` has its `?? "own"`
default applied. -/
structure SignalMonitorConfig where
  account : Option String := none
  dmPolicy : String := "pairing"
  allowFrom : List String := []
  groupAllowFrom : List String := []
  groupPolicy : String := "open"
  reactionMode : String := "own"
  reactionAllowlist : List String := []
  ignoreAttachments : Bool := false

/-- Collaborators of `handleEvent` that live outside `monitor.ts`
(identity.js, utils.js, pairing-store.js, routing, media store, the JSON
parse of the SSE frame), given as abstract functions plus the per-event
oracle results of the awaited store calls. -/
structure SignalExternal where
  parse : String → Option SignalReceivePayload
  resolveSignalSender : SignalEnvelope → Option SignalSender
  normalizeE164 : String → String
  isSignalSenderAllowed : SignalSender → List String → Bool
  formatSignalSenderDisplay : SignalSender → String
  formatSignalSenderId : SignalSender → String
  formatSignalPairingIdLine : SignalSender → String
  resolveSignalRecipient : SignalSender → Option String
  resolveSignalPeerId : SignalSender → String
  resolveRoute : Bool → String → RouteInfo
  storeAllowFrom : Except String (List String)
  pairingUpsert : String → PairingUpsertResult
  buildPairingReply : String → String → String
  fetchAttachment : SignalAttachment → Except String (Option (String × Option String))
  mediaKindFromMime : Option String → Option String
  formatAgentEnvelope : String → Option Int → String → String

/-- The `receive exception` log effects of monitor.ts lines 387-389: one
error log when the payload embeds a truthy exception message. -/
def exceptionEffects (payload : SignalReceivePayload) : List SignalEffect :=
  match payload.exceptionMessage with
  | some m => if m ≠ "" then [SignalEffect.logError ("receive exception: " ++ m)] else []
  | none => []

/-- The self-message guard of monitor.ts lines 396-400: a truthy
configured account, a phone-kind sender, and `sender.e164 ===
normalizeE164(account)`. -/
def isSelfSender (cfg : SignalMonitorConfig) (ext : SignalExternal)
    (sender : SignalSender) : Bool :=
  match cfg.account, sender with
  | some a, SignalSender.phone e => a ≠ "" && e == ext.normalizeE164 a
  | _, _ => false

/-- The coalesced conversational payload of monitor.ts lines 401-402:
`envelope.dataMessage ?? envelope.editMessage?.dataMessage`. -/
def resolvedDataMessage (envelope : SignalEnvelope) : Option SignalDataMessage :=
  match envelope.dataMessage with
  | some dm => some dm
  | none => envelope.editMessage.bind (fun e => e.dataMessage)

/-- The `.catch(() => [])` read of the persisted allow-from store
(monitor.ts lines 473-475): a rejected read is replaced by the empty
list. -/
def storeAllowResolved (ext : SignalExternal) : List String :=
  match ext.storeAllowFrom with
  | Except.ok xs => xs
  | Except.error _ => []

/-- The reaction-only branch of `handleEvent` (monitor.ts lines 403-462),
entered when the envelope carries a reaction and no conversational
payload. -/
def handleReactionOnly (cfg : SignalMonitorConfig) (ext : SignalExternal)
    (envelope : SignalEnvelope) (sender : SignalSender)
    (reaction : SignalReactionMessage) : List SignalEffect :=
  if reaction.isRemove.getD false then []
  else
    let emojiLabel :=
      match reaction.emoji.map jsTrim with
      | some e => if e ≠ "" then e else "emoji"
      | none => "emoji"
    let senderDisplay := ext.formatSignalSenderDisplay sender
    let senderName := envelope.sourceName.getD senderDisplay
    let logEffect :=
      SignalEffect.logVerbose ("signal reaction: " ++ emojiLabel ++ " from " ++ senderName)
    let targets := resolveSignalReactionTargets ext.normalizeE164 reaction
    let shouldNotify :=
      shouldEmitSignalReactionNotification ext.normalizeE164 ext.isSignalSenderAllowed
        { mode := some cfg.reactionMode
          account := cfg.account
          targets := some targets
          sender := some sender
          allowlist := some cfg.reactionAllowlist }
    if !shouldNotify then [logEffect]
    else
      let groupId := reaction.groupInfo.bind (fun g => g.groupId)
      let groupName := reaction.groupInfo.bind (fun g => g.groupName)
      let isGroup := truthy groupId
      let senderPeerId := ext.resolveSignalPeerId sender
      let route := ext.resolveRoute isGroup
        (if isGroup then groupId.getD "unknown" else senderPeerId)
      let groupLabel :=
        if isGroup then
          some ((groupName.getD "Signal Group") ++ " id:" ++ groupId.getD "")
        else none
      let messageId :=
        match reaction.targetSentTimestamp with
        | some t => if t ≠ 0 then toString t else "unknown"
        | none => "unknown"
      let text := buildSignalReactionSystemEventText
        { emojiLabel := emojiLabel
          actorLabel := senderName
          messageId := messageId
          targetLabel := targets.head?.map (fun t => t.display)
          groupLabel := groupLabel }
      let senderId := ext.formatSignalSenderId sender
      let contextKey := String.intercalate ":"
        (([ "signal", "reaction", "added", messageId, senderId, emojiLabel,
            groupId.getD "" ]).filter (fun s => s ≠ ""))
      [logEffect, SignalEffect.enqueueSystemEvent text route.sessionKey contextKey]

/-- The first-attachment fetch step of the conversational branch
(monitor.ts lines 552-574): the recorded effects (an error log when the
guarded fetch throws), the saved media path, and the media content type
(`fetched.contentType ?? firstAttachment.contentType`). -/
def fetchFirstAttachmentStep (ignoreAttachments : Bool) (ext : SignalExternal)
    (dataMessage : SignalDataMessage) :
    List SignalEffect × Option String × Option String :=
  match (dataMessage.attachments.getD []).head? with
  | some att =>
      if truthy att.id && !ignoreAttachments then
        match ext.fetchAttachment att with
        | Except.error e =>
            ([SignalEffect.logError ("attachment fetch failed: " ++ e)], none, none)
        | Except.ok none => ([], none, none)
        | Except.ok (some (path, ct)) =>
            ([], some path,
              match ct with
              | some c => some c
              | none => att.contentType)
      else ([], none, none)
  | none => ([], none, none)

/-- The media placeholder of monitor.ts lines 576-581. -/
def mediaPlaceholder (ext : SignalExternal) (dataMessage : SignalDataMessage)
    (mediaType : Option String) : String :=
  let kind := ext.mediaKindFromMime mediaType
  if truthy kind then "<media:" ++ kind.getD "" ++ ">"
  else if (dataMessage.attachments.getD []).length ≠ 0 then "<media:attachment>"
  else ""

/-- The body-text selection of monitor.ts lines 550 and 583-585:
`messageText || placeholder || dataMessage.quote?.text?.trim() || ""`. -/
def resolveBodyText (dataMessage : SignalDataMessage) (placeholder : String) : String :=
  let messageText := jsTrim (dataMessage.message.getD "")
  if messageText ≠ "" then messageText
  else if placeholder ≠ "" then placeholder
  else ((dataMessage.quote.bind (fun q => q.text)).map jsTrim).getD ""

/-- The tail of the conversational branch once a non-empty body exists
(monitor.ts lines 587-688): envelope formatting, route resolution, the
last-route update for direct messages, the verbose inbound preview log,
and the hand-off to the reply dispatch pipeline. -/
def conversationDispatchEffects (ext : SignalExternal) (envelope : SignalEnvelope)
    (sender : SignalSender) (commandAuthorized : Bool)
    (groupId groupName : Option String) (bodyText : String) : List SignalEffect :=
  let senderDisplay := ext.formatSignalSenderDisplay sender
  let senderRecipient := (ext.resolveSignalRecipient sender).getD ""
  let senderPeerId := ext.resolveSignalPeerId sender
  let isGroup := truthy groupId
  let fromLabel :=
    if isGroup then (groupName.getD "Signal Group") ++ " id:" ++ groupId.getD ""
    else (envelope.sourceName.getD senderDisplay) ++ " id:" ++ senderDisplay
  let body := ext.formatAgentEnvelope fromLabel envelope.timestamp bodyText
  let route := ext.resolveRoute isGroup
    (if isGroup then groupId.getD "unknown" else senderPeerId)
  let signalTo :=
    if isGroup then "group:" ++ groupId.getD ""
    else "signal:" ++ senderRecipient
  let lastRouteEffects :=
    if !isGroup then
      [SignalEffect.updateLastRoute route.mainSessionKey senderRecipient route.accountId]
    else []
  let previewLog :=
    SignalEffect.logVerbose
      ("signal inbound: from=" ++
        (if isGroup then "group:" ++ groupId.getD "unknown"
          else "signal:" ++ senderRecipient) ++
        " len=" ++ toString body.length ++
        " preview=\"" ++ escapeNewlines (body.take 200) ++ "\"")
  lastRouteEffects ++
    [previewLog, SignalEffect.dispatchReply commandAuthorized body signalTo]

/-- The conversational-message branch of `handleEvent` (monitor.ts lines
463-689): recipient guard, allow-list union, DM policy gate with pairing
bootstrap, group policy gates, command-authorization flag, attachment
fetch, body assembly, last-route update, and reply dispatch. -/
def handleDataMessage (cfg : SignalMonitorConfig) (ext : SignalExternal)
    (envelope : SignalEnvelope) (sender : SignalSender)
    (dataMessage : SignalDataMessage) : List SignalEffect :=
  let senderDisplay := ext.formatSignalSenderDisplay sender
  let senderRecipientOpt := ext.resolveSignalRecipient sender
  let senderPeerId := ext.resolveSignalPeerId sender
  let senderAllowId := ext.formatSignalSenderId sender
  if !(truthy senderRecipientOpt) then []
  else
    let senderRecipient := senderRecipientOpt.getD ""
    let senderIdLine := ext.formatSignalPairingIdLine sender
    let groupId := dataMessage.groupInfo.bind (fun g => g.groupId)
    let groupName := dataMessage.groupInfo.bind (fun g => g.groupName)
    let isGroup := truthy groupId
    let storeAllowFrom := storeAllowResolved ext
    let effectiveDmAllow := cfg.allowFrom ++ storeAllowFrom
    let effectiveGroupAllow := cfg.groupAllowFrom ++ storeAllowFrom
    let dmAllowed :=
      if cfg.dmPolicy = "open" then true
      else ext.isSignalSenderAllowed sender effectiveDmAllow
    if !isGroup && cfg.dmPolicy = "disabled" then []
    else if !isGroup && !dmAllowed then
      if cfg.dmPolicy = "pairing" then
        let result := ext.pairingUpsert senderAllowId
        let upsertEffect := SignalEffect.pairingUpsert "signal" senderAllowId
        if result.created then
          [ upsertEffect,
            SignalEffect.logVerbose ("signal pairing request sender=" ++ senderAllowId),
            SignalEffect.sendMessage ("signal:" ++ senderRecipient)
              (ext.buildPairingReply senderIdLine result.code) ]
        else [upsertEffect]
      else
        [SignalEffect.logVerbose
          ("Blocked signal sender " ++ senderDisplay ++ " (dmPolicy=" ++ cfg.dmPolicy ++ ")")]
    else if isGroup && cfg.groupPolicy = "disabled" then
      [SignalEffect.logVerbose "Blocked signal group message (groupPolicy: disabled)"]
    else if isGroup && cfg.groupPolicy = "allowlist" && effectiveGroupAllow.length = 0 then
      [SignalEffect.logVerbose
        "Blocked signal group message (groupPolicy: allowlist, no groupAllowFrom)"]
    else if isGroup && cfg.groupPolicy = "allowlist" &&
        !(ext.isSignalSenderAllowed sender effectiveGroupAllow) then
      [SignalEffect.logVerbose
        ("Blocked signal group sender " ++ senderDisplay ++ " (not in groupAllowFrom)")]
    else
      let commandAuthorized :=
        if isGroup then
          if effectiveGroupAllow.length > 0 then
            ext.isSignalSenderAllowed sender effectiveGroupAllow
          else true
        else dmAllowed
      let attachmentEffects := (fetchFirstAttachmentStep cfg.ignoreAttachments ext dataMessage).1
      let mediaType := (fetchFirstAttachmentStep cfg.ignoreAttachments ext dataMessage).2.2
      let bodyText := resolveBodyText dataMessage (mediaPlaceholder ext dataMessage mediaType)
      if bodyText = "" then attachmentEffects
      else
        attachmentEffects ++
          conversationDispatchEffects ext envelope sender commandAuthorized
            groupId groupName bodyText

/-- Mirror of the `handleEvent` closure of `monitorSignalProvider`
(monitor.ts lines 378-689): frame gate, JSON parse with logged failure,
exception log, envelope and sync gates, sender resolution, self-message
drop, then exactly one of the reaction-only and conversational paths. -/
def handleEvent (cfg : SignalMonitorConfig) (ext : SignalExternal)
    (event : SignalStreamEvent) : List SignalEffect :=
  if event.event ≠ some "receive" ∨ ¬ truthy event.data then []
  else
    match ext.parse (event.data.getD "") with
    | none => [SignalEffect.logError ("failed to parse event: " ++ event.data.getD "")]
    | some payload =>
        let exEffects := exceptionEffects payload
        match payload.envelope with
        | none => exEffects
        | some envelope =>
            if envelope.syncMessage then exEffects
            else
              match ext.resolveSignalSender envelope with
              | none => exEffects
              | some sender =>
                  if isSelfSender cfg ext sender then exEffects
                  else
                    match envelope.reactionMessage, resolvedDataMessage envelope with
                    | some reaction, none =>
                        exEffects ++ handleReactionOnly cfg ext envelope sender reaction
                    | _, some dm =>
                        exEffects ++ handleDataMessage cfg ext envelope sender dm
                    | none, none => exEffects

/-- Sequential model of the per-frame dispatch of the SSE loop
(monitor.ts lines 691-701): each frame is handled independently, a
handler failure never propagates to the loop. -/
def handleEvents (cfg : SignalMonitorConfig) (ext : SignalExternal)
    (events : List SignalStreamEvent) : List SignalEffect :=
  (events.map (handleEvent cfg ext)).flatten

/-- True of the system-event enqueue effect (a reaction notification). -/
def isEnqueueEffect (e : SignalEffect) : Bool :=
  match e with
  | SignalEffect.enqueueSystemEvent _ _ _ => true
  | _ => false

/-- True of an outbound `sendMessageSignal` call (in this embedding only
the pairing reply produces one inside `handleEvent`). -/
def isSendEffect (e : SignalEffect) : Bool :=
  match e with
  | SignalEffect.sendMessage _ _ => true
  | _ => false

/-- True of a pairing-store upsert call. -/
def isUpsertEffect (e : SignalEffect) : Bool :=
  match e with
  | SignalEffect.pairingUpsert _ _ => true
  | _ => false

/-- True of a last-route update. -/
def isLastRouteEffect (e : SignalEffect) : Bool :=
  match e with
  | SignalEffect.updateLastRoute _ _ _ => true
  | _ => false

/-- Counts the system-event enqueues (reaction notifications) among the
recorded effects. -/
def countEnqueues (effects : List SignalEffect) : Nat :=
  effects.countP isEnqueueEffect

/-- Counts the outbound `sendMessageSignal` calls among the recorded
effects. -/
def countSends (effects : List SignalEffect) : Nat :=
  effects.countP isSendEffect

/-- Counts the pairing-store upsert calls among the recorded effects. -/
def countUpserts (effects : List SignalEffect) : Nat :=
  effects.countP isUpsertEffect

/-- Counts the last-route updates among the recorded effects. -/
def countLastRoutes (effects : List SignalEffect) : Nat :=
  effects.countP isLastRouteEffect

/-- True of effects that are pure log lines, with no external side
effect. -/
def isLogOnly (e : SignalEffect) : Bool :=
  match e with
  | SignalEffect.logError _ => true
  | SignalEffect.logVerbose _ => true
  | _ => false

/-- Simple concrete instantiation of the external collaborators, used by
the witness evaluations; `normalizeE164` is the identity, uuid-first
sender resolution follows the investigation notes, the allow-list check
recognizes the `*` wildcard as in the test configuration. -/
def extBase : SignalExternal where
  parse := fun _ => none
  resolveSignalSender := fun env =>
    match env.sourceUuid with
    | some u => some (SignalSender.uuid u)
    | none =>
        match env.sourceNumber with
        | some n => some (SignalSender.phone n)
        | none => none
  normalizeE164 := fun s => s
  isSignalSenderAllowed := fun _ al => al.contains "*"
  formatSignalSenderDisplay := fun s =>
    match s with
    | SignalSender.phone e => e
    | SignalSender.uuid i => i
  formatSignalSenderId := fun s =>
    match s with
    | SignalSender.phone e => e
    | SignalSender.uuid i => "uuid:" ++ i
  formatSignalPairingIdLine := fun s =>
    match s with
    | SignalSender.phone e => "Your Signal number: " ++ e
    | SignalSender.uuid i => "Your Signal sender id: uuid:" ++ i
  resolveSignalRecipient := fun s =>
    match s with
    | SignalSender.phone e => some e
    | SignalSender.uuid i => some i
  resolveSignalPeerId := fun s =>
    match s with
    | SignalSender.phone e => e
    | SignalSender.uuid i => i
  resolveRoute := fun _ p => ⟨"session:" ++ p, "session:main", "default", "agent"⟩
  storeAllowFrom := Except.ok []
  pairingUpsert := fun _ => ⟨"PAIRCODE", true⟩
  buildPairingReply := fun idLine code => idLine ++ " Pairing code: " ++ code
  fetchAttachment := fun _ => Except.ok none
  mediaKindFromMime := fun _ => none
  formatAgentEnvelope := fun _ _ b => b

/-- A `receive` frame whose data parses through the concrete `parse`. -/
def evtRecv : SignalStreamEvent := { event := some "receive", data := some "frame" }

/-- Reaction payload of the end-to-end spec scenario: both a uuid and a
phone target, aimed at the configured own number. -/
def reactC1 : SignalReactionMessage :=
  { emoji := some "✅", targetAuthor := some "+15550002222",
    targetAuthorUuid := some "123e4567-e89b-12d3-a456-426614174000",
    targetSentTimestamp := some 2 }

def envC1 : SignalEnvelope :=
  { sourceNumber := some "+15550001111", sourceName := some "Ada",
    timestamp := some 1, reactionMessage := some reactC1 }

def payloadC1 : SignalReceivePayload := { envelope := some envC1 }

def extC1 : SignalExternal :=
  { extBase with
    parse := fun _ => some payloadC1 }

def cfgC1 : SignalMonitorConfig :=
  { account := some "+15550002222", dmPolicy := "open", allowFrom := ["*"],
    reactionMode := "own" }

/-- Frame carrying both a reaction facet and a conversational facet. -/
def reactC2 : SignalReactionMessage :=
  { emoji := some "👍", targetAuthor := some "+15550002222",
    targetSentTimestamp := some 2 }

def dmPing : SignalDataMessage := { message := some "ping" }

def envC2 : SignalEnvelope :=
  { sourceNumber := some "+15550001111", sourceName := some "Ada",
    timestamp := some 1, reactionMessage := some reactC2,
    dataMessage := some dmPing }

def payloadC2 : SignalReceivePayload := { envelope := some envC2 }

def extC2 : SignalExternal :=
  { extBase with
    parse := fun _ => some payloadC2 }

def cfgC2 : SignalMonitorConfig :=
  { dmPolicy := "open", allowFrom := ["*"], reactionMode := "all" }

/-- Unauthorized direct message under `dmPolicy = pairing`. -/
def dmHello : SignalDataMessage := { message := some "hello" }

def envC3 : SignalEnvelope :=
  { sourceNumber := some "+15550001111", sourceName := some "Ada",
    timestamp := some 1, dataMessage := some dmHello }

def payloadC3 : SignalReceivePayload := { envelope := some envC3 }

def extC3 : SignalExternal :=
  { extBase with
    parse := fun _ => some payloadC3
    isSignalSenderAllowed := fun _ _ => false }

/-- Same externals, but the pairing store reports the request as already
pending (`created = false`). -/
def extC3b : SignalExternal :=
  { extC3 with
    pairingUpsert := fun _ => ⟨"PAIRCODE", false⟩ }

def cfgC3 : SignalMonitorConfig := { dmPolicy := "pairing", allowFrom := [] }

/-- Reaction removal payload. -/
def reactC4 : SignalReactionMessage :=
  { emoji := some "👍", targetAuthor := some "+15550002222",
    targetSentTimestamp := some 2, isRemove := some true }

def envC4 : SignalEnvelope :=
  { sourceNumber := some "+15550001111", sourceName := some "Ada",
    timestamp := some 1, reactionMessage := some reactC4 }

def payloadC4 : SignalReceivePayload := { envelope := some envC4 }

def extC4 : SignalExternal :=
  { extBase with
    parse := fun _ => some payloadC4 }

def cfgC4 : SignalMonitorConfig :=
  { dmPolicy := "open", allowFrom := ["*"], reactionMode := "all" }

/-- Conversational message sent by the configured own number. -/
def envC5 : SignalEnvelope :=
  { sourceNumber := some "+15550002222", sourceName := some "Me",
    timestamp := some 1, dataMessage := some dmHello }

def payloadC5 : SignalReceivePayload := { envelope := some envC5 }

def extC5 : SignalExternal :=
  { extBase with
    parse := fun _ => some payloadC5 }

def cfgC5 : SignalMonitorConfig :=
  { account := some "+15550002222", dmPolicy := "pairing", allowFrom := [] }

/-- Direct message from a sender covered by the static allow-list under
`dmPolicy = pairing`. -/
def extC6 : SignalExternal :=
  { extBase with
    parse := fun _ => some payloadC3 }

def cfgC6 : SignalMonitorConfig := { dmPolicy := "pairing", allowFrom := ["*"] }

/-- Group message under `groupPolicy = open` with an empty group
allow-list. -/
def dmC7 : SignalDataMessage :=
  { message := some "ping",
    groupInfo := some { groupId := some "group-1", groupName := some "Grp" } }

def envC7 : SignalEnvelope :=
  { sourceNumber := some "+15550001111", sourceName := some "Ada",
    timestamp := some 1, dataMessage := some dmC7 }

def payloadC7 : SignalReceivePayload := { envelope := some envC7 }

def extC7 : SignalExternal :=
  { extBase with
    parse := fun _ => some payloadC7 }

def cfgC7 : SignalMonitorConfig :=
  { dmPolicy := "open", allowFrom := ["*"], groupPolicy := "open",
    groupAllowFrom := [] }

/-- A `receive` frame whose data does not parse (the concrete `parse` of
`extBase` rejects everything). -/
def evtC8 : SignalStreamEvent :=
  { event := some "receive", data := some "notjson" }

/-- Externals whose persisted allow-list read rejects. -/
def extC10 : SignalExternal :=
  { extBase with
    parse := fun _ => some payloadC3
    storeAllowFrom := Except.error "boom" }

def cfgC10 : SignalMonitorConfig := { dmPolicy := "open", allowFrom := ["*"] }

/-- Decision-engine parameters with mode `own` and no configured
account. -/
def paramsC9 : ShouldEmitSignalReactionParams :=
  { mode := some "own", account := none,
    targets := some [⟨TargetKind.uuid, "abc", "uuid:abc"⟩] }

/-- Default configuration used by witnesses that do not depend on the
policies. -/
def cfgC8 : SignalMonitorConfig := {}

/-- A non-`receive` frame, ignored by the handler. -/
def evtOther : SignalStreamEvent := { event := some "listening", data := some "x" }

theorem countEnqueues_append (a b : List SignalEffect) :
    countEnqueues (a ++ b) = countEnqueues a + countEnqueues b := by
  simp [countEnqueues, List.countP_append]

theorem countSends_append (a b : List SignalEffect) :
    countSends (a ++ b) = countSends a + countSends b := by
  simp [countSends, List.countP_append]

theorem countUpserts_append (a b : List SignalEffect) :
    countUpserts (a ++ b) = countUpserts a + countUpserts b := by
  simp [countUpserts, List.countP_append]

theorem countLastRoutes_append (a b : List SignalEffect) :
    countLastRoutes (a ++ b) = countLastRoutes a + countLastRoutes b := by
  simp [countLastRoutes, List.countP_append]

theorem countEnqueues_exceptionEffects (payload : SignalReceivePayload) :
    countEnqueues (exceptionEffects payload) = 0 := by
  unfold countEnqueues exceptionEffects
  cases payload.exceptionMessage with
  | none => rfl
  | some m => split <;> simp [isEnqueueEffect]

theorem countSends_exceptionEffects (payload : SignalReceivePayload) :
    countSends (exceptionEffects payload) = 0 := by
  unfold countSends exceptionEffects
  cases payload.exceptionMessage with
  | none => rfl
  | some m => split <;> simp [isSendEffect]

theorem countUpserts_exceptionEffects (payload : SignalReceivePayload) :
    countUpserts (exceptionEffects payload) = 0 := by
  unfold countUpserts exceptionEffects
  cases payload.exceptionMessage with
  | none => rfl
  | some m => split <;> simp [isUpsertEffect]

theorem countLastRoutes_exceptionEffects (payload : SignalReceivePayload) :
    countLastRoutes (exceptionEffects payload) = 0 := by
  unfold countLastRoutes exceptionEffects
  cases payload.exceptionMessage with
  | none => rfl
  | some m => split <;> simp [isLastRouteEffect]

/-- C9: in reaction mode `own`, a missing or blank configured account, or
an empty target-candidate set, always yields a negative decision: the
engine fails closed on missing comparison inputs. -/
theorem own_mode_fails_closed_on_missing_inputs
    (normalizeE164 : String → String)
    (isSignalSenderAllowed : SignalSender → List String → Bool)
    (params : ShouldEmitSignalReactionParams)
    (hmode : params.mode.getD "own" = "own")
    (h : params.account = none ∨ (∃ a, params.account = some a ∧ jsTrim a = "") ∨
      params.targets = none ∨ params.targets = some []) :
    shouldEmitSignalReactionNotification normalizeE164 isSignalSenderAllowed
      params = false := by
  unfold shouldEmitSignalReactionNotification
  rw [hmode]
  rcases h with h | ⟨a, ha, hta⟩ | h | h
  · simp [h]
  · cases ht : params.targets <;> simp [ha, hta, ht]
  · cases hacc : params.account <;> simp [h]
  · cases hacc : params.account <;> simp [h]

/-- Witness for C9 at a concrete input: mode `own`, no account, one uuid
target candidate. -/
theorem own_mode_fails_closed_on_missing_inputs_witness :
    paramsC9.mode.getD "own" = "own" ∧ paramsC9.account = none ∧
    shouldEmitSignalReactionNotification (fun s => s) (fun _ _ => true)
      paramsC9 = false :=
  ⟨rfl, rfl,
    own_mode_fails_closed_on_missing_inputs (fun s => s) (fun _ _ => true)
      paramsC9 rfl (Or.inl rfl)⟩

/-- C4: a reaction-only envelope flagged as a removal never enqueues a
notification, whatever the configured mode. -/
theorem reaction_removal_never_notifies
    (cfg : SignalMonitorConfig) (ext : SignalExternal) (event : SignalStreamEvent)
    (d : String) (payload : SignalReceivePayload) (envelope : SignalEnvelope)
    (sender : SignalSender) (reaction : SignalReactionMessage)
    (hev : event.event = some "receive") (hdata : event.data = some d)
    (hd : d ≠ "")
    (hparse : ext.parse d = some payload)
    (henv : payload.envelope = some envelope)
    (hsync : envelope.syncMessage = false)
    (hsender : ext.resolveSignalSender envelope = some sender)
    (hself : isSelfSender cfg ext sender = false)
    (hreact : envelope.reactionMessage = some reaction)
    (hnodm : resolvedDataMessage envelope = none)
    (hrm : reaction.isRemove = some true) :
    countEnqueues (handleEvent cfg ext event) = 0 := by
  have hres : handleEvent cfg ext event =
      exceptionEffects payload ++ handleReactionOnly cfg ext envelope sender reaction := by
    simp [handleEvent, hev, hdata, hd, truthy, hparse, henv, hsync, hsender,
      hself, hreact, hnodm]
  rw [hres, countEnqueues_append, countEnqueues_exceptionEffects]
  simp [handleReactionOnly, hrm, countEnqueues]

/-- Witness for C4 at a concrete input: mode `all`, a removal reaction,
zero enqueued notifications. -/
theorem reaction_removal_never_notifies_witness :
    reactC4.isRemove = some true ∧ cfgC4.reactionMode = "all" ∧
    countEnqueues (handleEvent cfgC4 extC4 evtRecv) = 0 :=
  ⟨rfl, rfl,
    reaction_removal_never_notifies cfgC4 extC4 evtRecv "frame" payloadC4 envC4
      (SignalSender.phone "+15550001111") reactC4 rfl rfl (by decide) rfl rfl rfl
      rfl rfl rfl rfl rfl⟩

/-- C1: a reaction-only event in mode `own` whose target set carries both
a uuid candidate and a phone candidate whose normalized E.164 form equals
the normalized configured account is decided positively — the match is
evaluated against every candidate, not only the first — and exactly one
notification is enqueued. -/
theorem signal_reaction_own_mode_checks_all_candidates
    (cfg : SignalMonitorConfig) (ext : SignalExternal) (event : SignalStreamEvent)
    (d : String) (payload : SignalReceivePayload) (envelope : SignalEnvelope)
    (sender : SignalSender) (reaction : SignalReactionMessage)
    (acct ta u : String)
    (hev : event.event = some "receive") (hdata : event.data = some d)
    (hd : d ≠ "")
    (hparse : ext.parse d = some payload)
    (henv : payload.envelope = some envelope)
    (hsync : envelope.syncMessage = false)
    (hsender : ext.resolveSignalSender envelope = some sender)
    (hself : isSelfSender cfg ext sender = false)
    (hreact : envelope.reactionMessage = some reaction)
    (hnodm : resolvedDataMessage envelope = none)
    (hrm : reaction.isRemove.getD false = false)
    (hmode : cfg.reactionMode = "own")
    (hacct : cfg.account = some acct) (hacctne : jsTrim acct ≠ "")
    (hu : reaction.targetAuthorUuid = some u) (hune : jsTrim u ≠ "")
    (hta : reaction.targetAuthor = some ta) (htane : jsTrim ta ≠ "")
    (hmatch : ext.normalizeE164 (jsTrim acct) = ext.normalizeE164 (jsTrim ta)) :
    shouldEmitSignalReactionNotification ext.normalizeE164 ext.isSignalSenderAllowed
      { mode := some cfg.reactionMode
        account := cfg.account
        targets := some (resolveSignalReactionTargets ext.normalizeE164 reaction)
        sender := some sender
        allowlist := some cfg.reactionAllowlist } = true ∧
    countEnqueues (handleEvent cfg ext event) = 1 := by
  have htargets : resolveSignalReactionTargets ext.normalizeE164 reaction =
      [⟨TargetKind.uuid, jsTrim u, "uuid:" ++ jsTrim u⟩,
       ⟨TargetKind.phone, ext.normalizeE164 (jsTrim ta), ext.normalizeE164 (jsTrim ta)⟩] := by
    simp [resolveSignalReactionTargets, hu, hta, hune, htane]
  have hshould : shouldEmitSignalReactionNotification ext.normalizeE164
      ext.isSignalSenderAllowed
      { mode := some cfg.reactionMode
        account := cfg.account
        targets := some (resolveSignalReactionTargets ext.normalizeE164 reaction)
        sender := some sender
        allowlist := some cfg.reactionAllowlist } = true := by
    simp [shouldEmitSignalReactionNotification, hmode, hacct, htargets, hacctne,
      hmatch]
  refine ⟨hshould, ?_⟩
  have hres : handleEvent cfg ext event =
      exceptionEffects payload ++ handleReactionOnly cfg ext envelope sender reaction := by
    simp [handleEvent, hev, hdata, hd, truthy, hparse, henv, hsync, hsender,
      hself, hreact, hnodm]
  rw [hres, countEnqueues_append, countEnqueues_exceptionEffects]
  simp [handleReactionOnly, hrm, hshould, countEnqueues, isEnqueueEffect,
    List.countP_cons]

/-- Witness for C1: the end-to-end spec scenario, account `+15550002222`,
reaction carrying both that phone target and a uuid target. -/
theorem signal_reaction_own_mode_checks_all_candidates_witness :
    cfgC1.reactionMode = "own" ∧
    reactC1.targetAuthor = some "+15550002222" ∧
    reactC1.targetAuthorUuid = some "123e4567-e89b-12d3-a456-426614174000" ∧
    countEnqueues (handleEvent cfgC1 extC1 evtRecv) = 1 :=
  ⟨rfl, rfl, rfl,
    (signal_reaction_own_mode_checks_all_candidates cfgC1 extC1 evtRecv "frame"
      payloadC1 envC1 (SignalSender.phone "+15550001111") reactC1
      "+15550002222" "+15550002222" "123e4567-e89b-12d3-a456-426614174000"
      rfl rfl (by decide) rfl rfl rfl rfl (by decide) rfl rfl rfl rfl rfl
      (by decide) rfl (by decide) rfl (by decide) rfl).2⟩

theorem countEnqueues_fetchFirstAttachmentStep (ig : Bool) (ext : SignalExternal)
    (dm : SignalDataMessage) :
    countEnqueues (fetchFirstAttachmentStep ig ext dm).1 = 0 := by
  unfold fetchFirstAttachmentStep
  repeat' split
  all_goals rfl

theorem countEnqueues_conversationDispatchEffects (ext : SignalExternal)
    (envelope : SignalEnvelope) (sender : SignalSender) (ca : Bool)
    (groupId groupName : Option String) (bodyText : String) :
    countEnqueues (conversationDispatchEffects ext envelope sender ca
      groupId groupName bodyText) = 0 := by
  unfold conversationDispatchEffects
  cases h : truthy groupId <;> simp only [h] <;> rfl

theorem countEnqueues_handleDataMessage (cfg : SignalMonitorConfig)
    (ext : SignalExternal) (envelope : SignalEnvelope) (sender : SignalSender)
    (dm : SignalDataMessage) :
    countEnqueues (handleDataMessage cfg ext envelope sender dm) = 0 := by
  simp only [handleDataMessage]
  repeat' split
  all_goals
    first
      | rfl
      | exact countEnqueues_fetchFirstAttachmentStep _ _ _
      | rw [countEnqueues_append, countEnqueues_fetchFirstAttachmentStep,
          countEnqueues_conversationDispatchEffects]

/-- C2: an envelope carrying both a reaction and a conversational payload
(directly or via `editMessage`) runs only the conversational path — the
reaction facet is dropped and no reaction notification is enqueued for
that frame. -/
theorem coexisting_reaction_and_message_drops_reaction
    (cfg : SignalMonitorConfig) (ext : SignalExternal) (event : SignalStreamEvent)
    (d : String) (payload : SignalReceivePayload) (envelope : SignalEnvelope)
    (sender : SignalSender) (reaction : SignalReactionMessage)
    (dm : SignalDataMessage)
    (hev : event.event = some "receive") (hdata : event.data = some d)
    (hd : d ≠ "")
    (hparse : ext.parse d = some payload)
    (henv : payload.envelope = some envelope)
    (hsync : envelope.syncMessage = false)
    (hsender : ext.resolveSignalSender envelope = some sender)
    (hself : isSelfSender cfg ext sender = false)
    (hreact : envelope.reactionMessage = some reaction)
    (hdm : resolvedDataMessage envelope = some dm) :
    handleEvent cfg ext event =
      exceptionEffects payload ++ handleDataMessage cfg ext envelope sender dm ∧
    countEnqueues (handleEvent cfg ext event) = 0 := by
  have hres : handleEvent cfg ext event =
      exceptionEffects payload ++ handleDataMessage cfg ext envelope sender dm := by
    simp [handleEvent, hev, hdata, hd, truthy, hparse, henv, hsync, hsender,
      hself, hreact, hdm]
  refine ⟨hres, ?_⟩
  rw [hres, countEnqueues_append, countEnqueues_exceptionEffects,
    countEnqueues_handleDataMessage]

/-- Witness for C2: a frame with a reaction facet and a `ping`
conversational facet, mode `all`; no notification is enqueued. -/
theorem coexisting_reaction_and_message_drops_reaction_witness :
    envC2.reactionMessage = some reactC2 ∧ envC2.dataMessage = some dmPing ∧
    countEnqueues (handleEvent cfgC2 extC2 evtRecv) = 0 :=
  ⟨rfl, rfl,
    (coexisting_reaction_and_message_drops_reaction cfgC2 extC2 evtRecv "frame"
      payloadC2 envC2 (SignalSender.phone "+15550001111") reactC2 dmPing
      rfl rfl (by decide) rfl rfl rfl rfl rfl rfl rfl).2⟩

/-- C3: an unauthorized direct-message sender under `dmPolicy = pairing`
triggers exactly one pairing-store upsert, and the outbound pairing reply
is sent iff that upsert reports `created = true`; a repeat message from a
still-pending sender (`created = false`) sends no second reply. -/
theorem pairing_reply_sent_iff_created
    (cfg : SignalMonitorConfig) (ext : SignalExternal) (event : SignalStreamEvent)
    (d : String) (payload : SignalReceivePayload) (envelope : SignalEnvelope)
    (sender : SignalSender) (dm : SignalDataMessage)
    (hev : event.event = some "receive") (hdata : event.data = some d)
    (hd : d ≠ "")
    (hparse : ext.parse d = some payload)
    (henv : payload.envelope = some envelope)
    (hsync : envelope.syncMessage = false)
    (hsender : ext.resolveSignalSender envelope = some sender)
    (hself : isSelfSender cfg ext sender = false)
    (hdm : resolvedDataMessage envelope = some dm)
    (hrec : truthy (ext.resolveSignalRecipient sender) = true)
    (hgrp : truthy (dm.groupInfo.bind (fun g => g.groupId)) = false)
    (hpol : cfg.dmPolicy = "pairing")
    (hdenied : ext.isSignalSenderAllowed sender
      (cfg.allowFrom ++ storeAllowResolved ext) = false) :
    countSends (handleEvent cfg ext event) =
      (if (ext.pairingUpsert (ext.formatSignalSenderId sender)).created
        then 1 else 0) ∧
    countUpserts (handleEvent cfg ext event) = 1 := by
  have hres : handleEvent cfg ext event =
      exceptionEffects payload ++ handleDataMessage cfg ext envelope sender dm := by
    cases hre : envelope.reactionMessage <;>
      simp [handleEvent, hev, hdata, hd, truthy, hparse, henv, hsync, hsender,
        hself, hre, hdm]
  have hdm2 : handleDataMessage cfg ext envelope sender dm =
      (if (ext.pairingUpsert (ext.formatSignalSenderId sender)).created then
        [SignalEffect.pairingUpsert "signal" (ext.formatSignalSenderId sender),
         SignalEffect.logVerbose
           ("signal pairing request sender=" ++ ext.formatSignalSenderId sender),
         SignalEffect.sendMessage
           ("signal:" ++ (ext.resolveSignalRecipient sender).getD "")
           (ext.buildPairingReply (ext.formatSignalPairingIdLine sender)
             (ext.pairingUpsert (ext.formatSignalSenderId sender)).code)]
      else
        [SignalEffect.pairingUpsert "signal" (ext.formatSignalSenderId sender)]) := by
    simp [handleDataMessage, hrec, hgrp, hpol, hdenied]
  constructor
  · rw [hres, countSends_append, countSends_exceptionEffects, hdm2]
    cases hc : (ext.pairingUpsert (ext.formatSignalSenderId sender)).created <;>
      simp [hc, countSends, isSendEffect, List.countP_cons]
  · rw [hres, countUpserts_append, countUpserts_exceptionEffects, hdm2]
    cases hc : (ext.pairingUpsert (ext.formatSignalSenderId sender)).created <;>
      simp [hc, countUpserts, isUpsertEffect, List.countP_cons]

/-- Witness for C3: the same unauthorized sender, first with a store that
creates the request (one reply), then with a store that reports it as
already pending (no reply); exactly one upsert each time. -/
theorem pairing_reply_sent_iff_created_witness :
    cfgC3.dmPolicy = "pairing" ∧
    countSends (handleEvent cfgC3 extC3 evtRecv) = 1 ∧
    countUpserts (handleEvent cfgC3 extC3 evtRecv) = 1 ∧
    countSends (handleEvent cfgC3 extC3b evtRecv) = 0 ∧
    countUpserts (handleEvent cfgC3 extC3b evtRecv) = 1 := by
  have h1 := pairing_reply_sent_iff_created cfgC3 extC3 evtRecv "frame"
    payloadC3 envC3 (SignalSender.phone "+15550001111") dmHello
    rfl rfl (by decide) rfl rfl rfl rfl rfl rfl (by decide) rfl rfl rfl
  have h2 := pairing_reply_sent_iff_created cfgC3 extC3b evtRecv "frame"
    payloadC3 envC3 (SignalSender.phone "+15550001111") dmHello
    rfl rfl (by decide) rfl rfl rfl rfl rfl rfl (by decide) rfl rfl rfl
  exact ⟨rfl, h1.1, h1.2, h2.1, h2.2⟩

/-- C5: an envelope whose resolved sender is a phone identity equal to the
normalized configured own account is dropped before any policy
evaluation: no pairing upsert, no outbound send, no notification enqueue,
no last-route update — only the receive-exception log can remain. -/
theorem self_message_dropped_before_effects
    (cfg : SignalMonitorConfig) (ext : SignalExternal) (event : SignalStreamEvent)
    (d : String) (payload : SignalReceivePayload) (envelope : SignalEnvelope)
    (e a : String)
    (hev : event.event = some "receive") (hdata : event.data = some d)
    (hd : d ≠ "")
    (hparse : ext.parse d = some payload)
    (henv : payload.envelope = some envelope)
    (hsync : envelope.syncMessage = false)
    (hsender : ext.resolveSignalSender envelope = some (SignalSender.phone e))
    (hacct : cfg.account = some a) (ha : a ≠ "")
    (heq : e = ext.normalizeE164 a) :
    handleEvent cfg ext event = exceptionEffects payload ∧
    countUpserts (handleEvent cfg ext event) = 0 ∧
    countSends (handleEvent cfg ext event) = 0 ∧
    countEnqueues (handleEvent cfg ext event) = 0 ∧
    countLastRoutes (handleEvent cfg ext event) = 0 := by
  have hself : isSelfSender cfg ext (SignalSender.phone e) = true := by
    simp [isSelfSender, hacct, ha, heq]
  have hres : handleEvent cfg ext event = exceptionEffects payload := by
    simp [handleEvent, hev, hdata, hd, truthy, hparse, henv, hsync, hsender,
      hself]
  refine ⟨hres, ?_, ?_, ?_, ?_⟩ <;> rw [hres]
  · exact countUpserts_exceptionEffects payload
  · exact countSends_exceptionEffects payload
  · exact countEnqueues_exceptionEffects payload
  · exact countLastRoutes_exceptionEffects payload

/-- Witness for C5: a message sent by the configured own number
`+15550002222` produces no effects at all beyond logging. -/
theorem self_message_dropped_before_effects_witness :
    cfgC5.account = some "+15550002222" ∧
    envC5.sourceNumber = some "+15550002222" ∧
    handleEvent cfgC5 extC5 evtRecv = [] :=
  ⟨rfl, rfl,
    (self_message_dropped_before_effects cfgC5 extC5 evtRecv "frame" payloadC5
      envC5 "+15550002222" "+15550002222" rfl rfl (by decide) rfl rfl rfl rfl
      rfl (by decide) rfl).1⟩

theorem countSends_conversationDispatchEffects (ext : SignalExternal)
    (envelope : SignalEnvelope) (sender : SignalSender) (ca : Bool)
    (groupId groupName : Option String) (bodyText : String) :
    countSends (conversationDispatchEffects ext envelope sender ca
      groupId groupName bodyText) = 0 := by
  unfold conversationDispatchEffects
  cases h : truthy groupId <;> simp only [h] <;> rfl

theorem countUpserts_conversationDispatchEffects (ext : SignalExternal)
    (envelope : SignalEnvelope) (sender : SignalSender) (ca : Bool)
    (groupId groupName : Option String) (bodyText : String) :
    countUpserts (conversationDispatchEffects ext envelope sender ca
      groupId groupName bodyText) = 0 := by
  unfold conversationDispatchEffects
  cases h : truthy groupId <;> simp only [h] <;> rfl

theorem dispatchReply_mem_conversationDispatchEffects (ext : SignalExternal)
    (envelope : SignalEnvelope) (sender : SignalSender) (ca : Bool)
    (groupId groupName : Option String) (bodyText : String) :
    ∃ b t, SignalEffect.dispatchReply ca b t ∈
      conversationDispatchEffects ext envelope sender ca groupId groupName bodyText := by
  unfold conversationDispatchEffects
  cases h : truthy groupId <;> simp [h]

theorem dispatchReply_flag_eq_conversationDispatchEffects (ext : SignalExternal)
    (envelope : SignalEnvelope) (sender : SignalSender) (ca : Bool)
    (groupId groupName : Option String) (bodyText : String)
    (f : Bool) (b t : String)
    (hmem : SignalEffect.dispatchReply f b t ∈
      conversationDispatchEffects ext envelope sender ca groupId groupName bodyText) :
    f = ca := by
  unfold conversationDispatchEffects at hmem
  cases h : truthy groupId <;> rw [h] at hmem <;> simp at hmem <;> tauto

theorem dispatchReply_not_mem_exceptionEffects (payload : SignalReceivePayload)
    (f : Bool) (b t : String) :
    SignalEffect.dispatchReply f b t ∉ exceptionEffects payload := by
  unfold exceptionEffects
  cases payload.exceptionMessage with
  | none => simp
  | some m => split <;> simp

/-- C6: a direct message whose sender is in the effective allow-list —
the concatenation (union) of the static `allowFrom` config and the
persisted store list — is allowed under `dmPolicy = pairing`: no pairing
code is issued, no pairing-store upsert happens, and the message is
dispatched to the reply pipeline with the authorized flag. -/
theorem allowlisted_dm_never_pairs
    (cfg : SignalMonitorConfig) (ext : SignalExternal) (event : SignalStreamEvent)
    (d : String) (payload : SignalReceivePayload) (envelope : SignalEnvelope)
    (sender : SignalSender) (dm : SignalDataMessage)
    (hev : event.event = some "receive") (hdata : event.data = some d)
    (hd : d ≠ "")
    (hparse : ext.parse d = some payload)
    (henv : payload.envelope = some envelope)
    (hsync : envelope.syncMessage = false)
    (hsender : ext.resolveSignalSender envelope = some sender)
    (hself : isSelfSender cfg ext sender = false)
    (hdm : resolvedDataMessage envelope = some dm)
    (hrec : truthy (ext.resolveSignalRecipient sender) = true)
    (hgrp : truthy (dm.groupInfo.bind (fun g => g.groupId)) = false)
    (hpol : cfg.dmPolicy = "pairing")
    (hallowed : ext.isSignalSenderAllowed sender
      (cfg.allowFrom ++ storeAllowResolved ext) = true)
    (hmsg : jsTrim (dm.message.getD "") ≠ "")
    (hatt : dm.attachments = none) :
    countUpserts (handleEvent cfg ext event) = 0 ∧
    countSends (handleEvent cfg ext event) = 0 ∧
    ∃ b t, SignalEffect.dispatchReply true b t ∈ handleEvent cfg ext event := by
  have hres : handleEvent cfg ext event =
      exceptionEffects payload ++ handleDataMessage cfg ext envelope sender dm := by
    cases hre : envelope.reactionMessage <;>
      simp [handleEvent, hev, hdata, hd, truthy, hparse, henv, hsync, hsender,
        hself, hre, hdm]
  have hfetch : fetchFirstAttachmentStep cfg.ignoreAttachments ext dm =
      ([], none, none) := by
    simp [fetchFirstAttachmentStep, hatt]
  have hbody : resolveBodyText dm (mediaPlaceholder ext dm none) =
      jsTrim (dm.message.getD "") := by
    simp [resolveBodyText, hmsg]
  have hdm2 : handleDataMessage cfg ext envelope sender dm =
      conversationDispatchEffects ext envelope sender true
        (dm.groupInfo.bind (fun g => g.groupId))
        (dm.groupInfo.bind (fun g => g.groupName))
        (jsTrim (dm.message.getD "")) := by
    simp [handleDataMessage, hrec, hgrp, hpol, hallowed, hfetch, hbody, hmsg]
  refine ⟨?_, ?_, ?_⟩
  · simp [hres, hdm2, countUpserts_append, countUpserts_exceptionEffects,
      countUpserts_conversationDispatchEffects]
  · simp [hres, hdm2, countSends_append, countSends_exceptionEffects,
      countSends_conversationDispatchEffects]
  · obtain ⟨b, t, hm⟩ := dispatchReply_mem_conversationDispatchEffects ext
      envelope sender true (dm.groupInfo.bind (fun g => g.groupId))
      (dm.groupInfo.bind (fun g => g.groupName)) (jsTrim (dm.message.getD ""))
    exact ⟨b, t, by rw [hres, hdm2]; exact List.mem_append_right _ hm⟩

/-- C7: a group message that passes the read-policy checks hands the
reply pipeline a command-authorized flag equal to sender membership in
the effective group allow-list when that list is non-empty, and `true`
when it is empty — so a non-allowlist `groupPolicy` with an empty list
yields an authorized command flag even though the same empty list under
`groupPolicy = allowlist` denies the read entirely. -/
theorem group_command_authorized_flag
    (cfg : SignalMonitorConfig) (ext : SignalExternal) (event : SignalStreamEvent)
    (d : String) (payload : SignalReceivePayload) (envelope : SignalEnvelope)
    (sender : SignalSender) (dm : SignalDataMessage)
    (hev : event.event = some "receive") (hdata : event.data = some d)
    (hd : d ≠ "")
    (hparse : ext.parse d = some payload)
    (henv : payload.envelope = some envelope)
    (hsync : envelope.syncMessage = false)
    (hsender : ext.resolveSignalSender envelope = some sender)
    (hself : isSelfSender cfg ext sender = false)
    (hdm : resolvedDataMessage envelope = some dm)
    (hrec : truthy (ext.resolveSignalRecipient sender) = true)
    (hgrp : truthy (dm.groupInfo.bind (fun g => g.groupId)) = true)
    (hnd : cfg.groupPolicy ≠ "disabled")
    (hallow : cfg.groupPolicy = "allowlist" →
      (cfg.groupAllowFrom ++ storeAllowResolved ext).length ≠ 0 ∧
      ext.isSignalSenderAllowed sender
        (cfg.groupAllowFrom ++ storeAllowResolved ext) = true)
    (hmsg : jsTrim (dm.message.getD "") ≠ "")
    (hatt : dm.attachments = none) :
    (∃ b t, SignalEffect.dispatchReply
      (if (cfg.groupAllowFrom ++ storeAllowResolved ext).length > 0 then
        ext.isSignalSenderAllowed sender (cfg.groupAllowFrom ++ storeAllowResolved ext)
      else true) b t ∈ handleEvent cfg ext event) ∧
    (∀ f b t, SignalEffect.dispatchReply f b t ∈ handleEvent cfg ext event →
      f = (if (cfg.groupAllowFrom ++ storeAllowResolved ext).length > 0 then
        ext.isSignalSenderAllowed sender (cfg.groupAllowFrom ++ storeAllowResolved ext)
      else true)) := by
  have hres : handleEvent cfg ext event =
      exceptionEffects payload ++ handleDataMessage cfg ext envelope sender dm := by
    cases hre : envelope.reactionMessage <;>
      simp [handleEvent, hev, hdata, hd, truthy, hparse, henv, hsync, hsender,
        hself, hre, hdm]
  have hfetch : fetchFirstAttachmentStep cfg.ignoreAttachments ext dm =
      ([], none, none) := by
    simp [fetchFirstAttachmentStep, hatt]
  have hbody : resolveBodyText dm (mediaPlaceholder ext dm none) =
      jsTrim (dm.message.getD "") := by
    simp [resolveBodyText, hmsg]
  have hdm2 : handleDataMessage cfg ext envelope sender dm =
      conversationDispatchEffects ext envelope sender
        (if (cfg.groupAllowFrom ++ storeAllowResolved ext).length > 0 then
          ext.isSignalSenderAllowed sender (cfg.groupAllowFrom ++ storeAllowResolved ext)
        else true)
        (dm.groupInfo.bind (fun g => g.groupId))
        (dm.groupInfo.bind (fun g => g.groupName))
        (jsTrim (dm.message.getD "")) := by
    by_cases hap : cfg.groupPolicy = "allowlist"
    · obtain ⟨hne, hmem⟩ := hallow hap
      have hpos : (cfg.groupAllowFrom ++ storeAllowResolved ext).length > 0 :=
        Nat.pos_of_ne_zero hne
      simp [handleDataMessage, hrec, hgrp, hnd, hap, hmem, hpos, hfetch,
        hbody, hmsg]
      intro h1 h2
      exact absurd (show (cfg.groupAllowFrom ++ storeAllowResolved ext).length = 0 by
        simp [h1, h2]) hne
    · simp [handleDataMessage, hrec, hgrp, hnd, hap, hfetch, hbody, hmsg]
  constructor
  · obtain ⟨b, t, hm⟩ := dispatchReply_mem_conversationDispatchEffects ext
      envelope sender _ (dm.groupInfo.bind (fun g => g.groupId))
      (dm.groupInfo.bind (fun g => g.groupName)) (jsTrim (dm.message.getD ""))
    exact ⟨b, t, by rw [hres, hdm2]; exact List.mem_append_right _ hm⟩
  · intro f b t hmemb
    rw [hres, hdm2] at hmemb
    rcases List.mem_append.mp hmemb with h | h
    · exact absurd h (dispatchReply_not_mem_exceptionEffects payload f b t)
    · exact dispatchReply_flag_eq_conversationDispatchEffects ext envelope
        sender _ _ _ _ f b t h

/-- Witness for C6: sender covered by the static wildcard allow-list
under `dmPolicy = pairing`: no upsert, no send, and an authorized
dispatch. -/
theorem allowlisted_dm_never_pairs_witness :
    cfgC6.dmPolicy = "pairing" ∧
    countUpserts (handleEvent cfgC6 extC6 evtRecv) = 0 ∧
    countSends (handleEvent cfgC6 extC6 evtRecv) = 0 ∧
    ∃ b t, SignalEffect.dispatchReply true b t ∈ handleEvent cfgC6 extC6 evtRecv :=
  ⟨rfl,
    (allowlisted_dm_never_pairs cfgC6 extC6 evtRecv "frame" payloadC3 envC3
      (SignalSender.phone "+15550001111") dmHello rfl rfl (by decide) rfl rfl
      rfl rfl rfl rfl (by decide) (by decide) rfl (by decide) (by decide) rfl).1,
    (allowlisted_dm_never_pairs cfgC6 extC6 evtRecv "frame" payloadC3 envC3
      (SignalSender.phone "+15550001111") dmHello rfl rfl (by decide) rfl rfl
      rfl rfl rfl rfl (by decide) (by decide) rfl (by decide) (by decide) rfl).2.1,
    (allowlisted_dm_never_pairs cfgC6 extC6 evtRecv "frame" payloadC3 envC3
      (SignalSender.phone "+15550001111") dmHello rfl rfl (by decide) rfl rfl
      rfl rfl rfl rfl (by decide) (by decide) rfl (by decide) (by decide) rfl).2.2⟩

/-- Witness for C7: `groupPolicy = open` with an empty effective group
allow-list: the dispatched command-authorized flag is `true`. -/
theorem group_command_authorized_flag_witness :
    cfgC7.groupPolicy = "open" ∧ cfgC7.groupAllowFrom = [] ∧
    (∃ b t, SignalEffect.dispatchReply true b t ∈ handleEvent cfgC7 extC7 evtRecv) :=
  ⟨rfl, rfl,
    (group_command_authorized_flag cfgC7 extC7 evtRecv "frame" payloadC7 envC7
      (SignalSender.phone "+15550001111") dmC7 rfl rfl (by decide) rfl rfl rfl
      rfl rfl rfl (by decide) (by decide) (by decide)
      (fun h => absurd h (by decide)) (by decide) rfl).1⟩

/-- C8: a `receive` frame whose data fails to parse produces exactly the
failure log — the frame is discarded without any other effect, and within
a stream of frames the surrounding frames are processed exactly as they
would be on their own. -/
theorem parse_failure_logged_and_isolated
    (cfg : SignalMonitorConfig) (ext : SignalExternal) (event : SignalStreamEvent)
    (d : String) (es1 es2 : List SignalStreamEvent)
    (hev : event.event = some "receive") (hdata : event.data = some d)
    (hd : d ≠ "")
    (hparse : ext.parse d = none) :
    handleEvent cfg ext event =
      [SignalEffect.logError ("failed to parse event: " ++ d)] ∧
    handleEvents cfg ext (es1 ++ event :: es2) =
      handleEvents cfg ext es1 ++
        [SignalEffect.logError ("failed to parse event: " ++ d)] ++
        handleEvents cfg ext es2 := by
  have h1 : handleEvent cfg ext event =
      [SignalEffect.logError ("failed to parse event: " ++ d)] := by
    simp [handleEvent, hev, hdata, hd, truthy, hparse]
  refine ⟨h1, ?_⟩
  simp [handleEvents, h1]

/-- Witness for C8: an unparsable frame between a non-`receive` frame and
an empty tail yields only the failure log in between. -/
theorem parse_failure_logged_and_isolated_witness :
    extBase.parse "notjson" = none ∧
    handleEvent cfgC8 extBase evtC8 =
      [SignalEffect.logError "failed to parse event: notjson"] ∧
    handleEvents cfgC8 extBase ([evtOther] ++ evtC8 :: []) =
      handleEvents cfgC8 extBase [evtOther] ++
        [SignalEffect.logError "failed to parse event: notjson"] ++
        handleEvents cfgC8 extBase [] :=
  ⟨rfl,
    (parse_failure_logged_and_isolated cfgC8 extBase evtC8 "notjson" [evtOther]
      [] rfl rfl (by decide) rfl).1,
    (parse_failure_logged_and_isolated cfgC8 extBase evtC8 "notjson" [evtOther]
      [] rfl rfl (by decide) rfl).2⟩

/-- C10: when the persisted allow-list read rejects, the error is
swallowed and the persisted list is treated as empty — the run is
identical to one with an empty store, and the effective DM and group
allow-lists reduce to the static config lists alone. -/
theorem store_read_failure_treated_as_empty
    (cfg : SignalMonitorConfig) (ext : SignalExternal) (event : SignalStreamEvent)
    (msg : String)
    (hstore : ext.storeAllowFrom = Except.error msg) :
    handleEvent cfg ext event =
      handleEvent cfg { ext with storeAllowFrom := Except.ok [] } event ∧
    cfg.allowFrom ++ storeAllowResolved ext = cfg.allowFrom ∧
    cfg.groupAllowFrom ++ storeAllowResolved ext = cfg.groupAllowFrom := by
  obtain ⟨p, rs, ne, isa, fsd, fsi, fpl, rr, rp, rrt, store, pu, bpr, fa, mkm, fae⟩ := ext
  simp only [SignalExternal.storeAllowFrom] at hstore
  subst hstore
  refine ⟨rfl, ?_, ?_⟩ <;> simp [storeAllowResolved]

/-- Witness for C10: a rejecting store read behaves exactly like an empty
store on a conversational event. -/
theorem store_read_failure_treated_as_empty_witness :
    extC10.storeAllowFrom = Except.error "boom" ∧
    handleEvent cfgC10 extC10 evtRecv =
      handleEvent cfgC10 { extC10 with storeAllowFrom := Except.ok [] } evtRecv ∧
    cfgC10.allowFrom ++ storeAllowResolved extC10 = cfgC10.allowFrom :=
  ⟨rfl,
    (store_read_failure_treated_as_empty cfgC10 extC10 evtRecv "boom" rfl).1,
    (store_read_failure_treated_as_empty cfgC10 extC10 evtRecv "boom" rfl).2.1⟩
